import Mathlib

/-!
# Verification of the HRM attendance pipeline

A shallow embedding of the attendance recording and validation pipeline of
the HRM-system backend (`src/controllers/attendanceController.js`,
`src/utils/email.js`, and the attendance schema), together with theorems
settling the specification claims about it.

Modelling conventions:
* Timestamps are milliseconds since the epoch, as `Int` (JS `Date.getTime()`).
* The JS local calendar (`getFullYear`/`getMonth`/`getDate`, `getHours`,
  `setHours(0,0,0,0)`) is modelled with a fixed timezone offset `tz` in
  milliseconds: local calendar day and local hour are obtained by flooring
  `t + tz`.  `Int` division `/` and `%` in Lean are Euclidean (floor for a
  positive divisor), which matches calendar truncation.
* JS numbers appearing in coordinates, face descriptors and report hours are
  modelled as exact rationals `ℚ`; `Math.sqrt` is modelled by `Real.sqrt`
  over `ℝ`.  Where a handler branches on a square-root comparison the
  embedding uses the equivalent squared comparison over `ℚ` so that the
  branch stays decidable; the bridging equivalences with the verbatim
  square-root forms are proved (`outsideFenceB_iff`, `faceRejectB_iff`).
* MongoDB state is a `List AttendanceRecord` (the attendance collection) and
  a `List Employee` (the employee collection).  `findOne(...).sort({entryTime:-1})`
  is modelled by an explicit maximum search (`findOpen`); Mongo leaves the
  order of ties unspecified, the model keeps the earliest-stored record.
* The e-mail collaborator `sendEmailAndNotify` (src/utils/email.js) throws on
  dispatch failure; handlers receive a flag `emailFails` saying whether a
  dispatch attempt fails, and an un-caught failure routes to the handler's
  `catch` block, i.e. a 500 response with the store untouched.
* HTTP responses are reduced to their status code, which is what
  distinguishes the error classes in this code base
  (400 validation / 401 authentication or policy / 403 authorization /
  404 not found / 500 server error / 200 & 201 success).
-/

namespace HRM

/-- Employee roles (`src/models/Employee.js` enum: employee, stagiaire, admin). -/
inductive Role where
  | employee
  | stagiaire
  | admin
deriving DecidableEq, Repr

/-- Attendance capture methods (`attendanceSchema.method` enum). -/
inductive Method where
  | manual
  | qr
  | facial
deriving DecidableEq, Repr

/-- A 2-D coordinate pair `[lng, lat]` (GeoJSON `Point.coordinates`). -/
structure GeoPoint where
  lng : ℚ
  lat : ℚ
deriving DecidableEq, Repr

/-- One document of the attendance collection (`attendanceSchema` in
`src/index.js`): owning employee, entry timestamp, optional exit timestamp,
entry location, optional exit location, capture method.  `entryTime` is
`Option` so that the report's presence test `if (record.entryTime)` is
representable. -/
structure AttendanceRecord where
  employee : Nat
  entryTime : Option Int
  exitTime : Option Int
  location : GeoPoint
  exitLocation : Option GeoPoint
  method : Method
deriving DecidableEq, Repr

/-- The slice of an employee document the attendance pipeline reads:
identity and the optional stored face descriptor. -/
structure Employee where
  id : Nat
  faceDescriptor : Option (List ℚ)
deriving DecidableEq, Repr

/-- The authenticated principal resolved by the auth middleware
(`req.user = {id, role}`). -/
structure Actor where
  id : Nat
  role : Role
deriving DecidableEq, Repr

/-- An HTTP response reduced to its status code. -/
structure Response where
  status : Nat
deriving DecidableEq, Repr

/-- `Employee.findById` over the employee collection. -/
def findEmployee (emps : List Employee) (i : Nat) : Option Employee :=
  emps.find? (fun e => e.id == i)

/-! ## Local calendar arithmetic -/

/-- Milliseconds in one minute. -/
def msPerMin : Int := 60 * 1000

/-- Milliseconds in one day. -/
def msPerDay : Int := 24 * 60 * 60 * 1000

/-- The local calendar day index of timestamp `t` under timezone offset `tz`:
the comparison `new Date(y, m, d)` of two timestamps compares these indices. -/
def localDay (tz t : Int) : Int := (t + tz) / msPerDay

/-- Absolute timestamp of local midnight of the day containing `t`
(JS `d.setHours(0,0,0,0)`). -/
def localMidnight (tz t : Int) : Int := localDay tz t * msPerDay - tz

/-- The local hour of day of `t` (JS `d.getHours()`), in `0..23`. -/
def hourOfDay (tz t : Int) : Int := ((t + tz) % msPerDay) / (60 * 60 * 1000)

/-! ## Temporal admissibility checker

`validateRecordAttendance` / `validateScanQr` / `validateFacialAttendance` /
`validateExitAttendance` all run the same custom check on the claimed
timestamp (src/controllers/attendanceController.js lines 37-79 and its three
verbatim copies). -/

/-- Result of the claimed-timestamp check; the reject constructors name the
four thrown error messages. -/
inductive TimeCheck where
  | accept
  | rejectFuture
  | rejectPastDate
  | rejectPastTime
  | rejectWindow
deriving DecidableEq, Repr

/-- The custom claimed-timestamp validator shared by all attendance
validators: reject more than 15 minutes in the future; for non-admins reject
an earlier local calendar date and reject more than 15 minutes in the past;
for admins reject more than 7 days in the past; accept otherwise. -/
def checkClaimedTime (tz : Int) (role : Role) (nowMs claimedMs : Int) : TimeCheck :=
  let timeDiff := claimedMs - nowMs
  if timeDiff > 15 * msPerMin then .rejectFuture
  else if role ≠ .admin ∧ localDay tz claimedMs < localDay tz nowMs then .rejectPastDate
  else if role ≠ .admin ∧ timeDiff < -(15 * msPerMin) then .rejectPastTime
  else if role = .admin ∧ timeDiff < -(7 * msPerDay) then .rejectWindow
  else .accept

/-! ## Geofence evaluator

Each entry handler computes
`Math.sqrt((lng-allowedLng)^2 + (lat-allowedLat)^2) * 111000` and rejects when
this exceeds `allowedRadius`. -/

/-- The planar scaled distance of the source, verbatim over `ℝ`:
`Math.sqrt(Math.pow(location.coordinates[0] - allowedLocation.lng, 2) +
Math.pow(location.coordinates[1] - allowedLocation.lat, 2)) * 111000`. -/
noncomputable def scaledDistance (pt center : GeoPoint) : ℝ :=
  Real.sqrt (((pt.lng - center.lng : ℚ) : ℝ) ^ 2 + ((pt.lat - center.lat : ℚ) : ℝ) ^ 2) * 111000

/-- The geofence gate passes exactly when the handler's
`if (distance > allowedRadius)` rejection does not fire. -/
def geofencePasses (pt center : GeoPoint) (radius : ℝ) : Prop :=
  ¬ (scaledDistance pt center > radius)

/-- Decidable form of the handlers' geofence rejection test
`distance > allowedRadius`, with the square root eliminated by squaring both
sides; `outsideFenceB_iff` proves it equal to the verbatim form for any
non-negative radius (the deployed radius is 500). -/
def outsideFenceB (pt center : GeoPoint) (radius : ℚ) : Bool :=
  decide (radius ^ 2 < ((pt.lng - center.lng) ^ 2 + (pt.lat - center.lat) ^ 2) * 111000 ^ 2)

/-! ## Face-match evaluator -/

/-- `descriptor1.reduce((sum, val, i) => sum + Math.pow(val - descriptor2[i], 2), 0)`
for two descriptors of equal length. -/
def sumSq (a b : List ℚ) : ℚ := (List.zipWith (fun x y => (x - y) ^ 2) a b).sum

/-- `calculateDistance(descriptor1, descriptor2)`
(src/controllers/attendanceController.js lines 675-684): `Infinity` (here
`⊤ : EReal`) when either descriptor is absent or the lengths differ,
otherwise the Euclidean norm of the difference. -/
noncomputable def calculateDistance : Option (List ℚ) → Option (List ℚ) → EReal
  | some d1, some d2 =>
    if d1.length = d2.length then ((Real.sqrt ((sumSq d1 d2 : ℚ) : ℝ) : ℝ) : EReal)
    else ⊤
  | _, _ => ⊤

/-- Decidable form of the facial handler's rejection test
`calculateDistance(faceTemplate, employee.faceDescriptor) >= 0.6`, with the
square root eliminated by squaring (0.6² = 9/25); `faceRejectB_iff` proves it
equal to the verbatim form. -/
def faceRejectB (probe stored : List ℚ) : Bool :=
  if probe.length = stored.length then decide ((9 / 25 : ℚ) ≤ sumSq probe stored)
  else true

/-! ## Capture-method adapters

Each handler below models the corresponding Express handler after body
parsing, with the express-validator chain folded in as the leading temporal
gate (the shape checks — Mongo-id format, coordinate arity, ISO-8601 — are
absorbed by the typed request structures).  `emailFails` says whether a
`sendEmailAndNotify` attempt fails; the util re-throws on failure
(src/utils/email.js line 44), so a failing call that is not locally caught
lands in the handler's `catch` and produces a 500 with the store unchanged. -/

/-- Body of `POST /attendance`. -/
structure EntryReq where
  employeeId : Nat
  entryTime : Int
  location : GeoPoint
  method : Method
deriving DecidableEq, Repr

/-- `recordAttendance` (lines 291-399): temporal validation, employee lookup
(404), principal check (403), geofence (400, with a notification attempt
first), late-arrival notification when the local hour is ≥ 9, then creation
of the record (201). -/
def recordAttendance (tz : Int) (center : GeoPoint) (radius : ℚ) (emailFails : Bool)
    (actor : Actor) (now : Int) (emps : List Employee) (db : List AttendanceRecord)
    (req : EntryReq) : Response × List AttendanceRecord :=
  if checkClaimedTime tz actor.role now req.entryTime ≠ .accept then (⟨400⟩, db)
  else
    match findEmployee emps req.employeeId with
    | none => (⟨404⟩, db)
    | some _ =>
      if actor.id ≠ req.employeeId ∧ actor.role ≠ .admin then (⟨403⟩, db)
      else if outsideFenceB req.location center radius then
        (⟨if emailFails then 500 else 400⟩, db)
      else if 9 ≤ hourOfDay tz req.entryTime ∧ emailFails then (⟨500⟩, db)
      else (⟨201⟩, db ++ [⟨req.employeeId, some req.entryTime, none, req.location, none, req.method⟩])

/-- The payload `generateQrCode` serialises into the QR image:
`{employeeId, timestamp: Date.now(), expiresAt: Date.now() + 12*60*60*1000}`
(lines 501-505). -/
structure QrPayload where
  employeeId : Nat
  timestamp : Int
  expiresAt : Option Int
deriving DecidableEq, Repr

/-- The payload generated at time `issuedAt` (lines 501-505). -/
def generateQrPayload (employeeId : Nat) (issuedAt : Int) : QrPayload :=
  ⟨employeeId, issuedAt, some (issuedAt + 12 * 60 * 60 * 1000)⟩

/-- Body of `POST /attendance/scan-qr`; `qrData = none` stands for a string
that fails `JSON.parse` or carries an ill-formed employee id. -/
structure QrReq where
  qrData : Option QrPayload
  entryTime : Int
  location : GeoPoint
deriving DecidableEq, Repr

/-- `scanQrCode` (lines 528-673): temporal validation, payload parse (400),
principal check (403), employee lookup (404), 5-minute expiry of the token's
issuance `timestamp` (401, with a notification attempt first; the payload's
`expiresAt` is not consulted), geofence (400), late-arrival notification,
then creation with method `qr` (201). -/
def scanQrCode (tz : Int) (center : GeoPoint) (radius : ℚ) (emailFails : Bool)
    (actor : Actor) (now : Int) (emps : List Employee) (db : List AttendanceRecord)
    (req : QrReq) : Response × List AttendanceRecord :=
  if checkClaimedTime tz actor.role now req.entryTime ≠ .accept then (⟨400⟩, db)
  else
    match req.qrData with
    | none => (⟨400⟩, db)
    | some p =>
      if actor.id ≠ p.employeeId ∧ actor.role ≠ .admin then (⟨403⟩, db)
      else
        match findEmployee emps p.employeeId with
        | none => (⟨404⟩, db)
        | some _ =>
          if now - p.timestamp > 5 * msPerMin then
            (⟨if emailFails then 500 else 401⟩, db)
          else if outsideFenceB req.location center radius then
            (⟨if emailFails then 500 else 400⟩, db)
          else if 9 ≤ hourOfDay tz req.entryTime ∧ emailFails then (⟨500⟩, db)
          else (⟨201⟩, db ++ [⟨p.employeeId, some req.entryTime, none, req.location, none, .qr⟩])

/-- Body of `POST /attendance/facial`. -/
structure FacialReq where
  employeeId : Nat
  faceTemplate : List ℚ
  entryTime : Int
  location : GeoPoint
deriving DecidableEq, Repr

/-- `facialAttendance` (lines 686-818): validator (probe must have 128
entries, temporal check), employee & stored-descriptor lookup (401), distance
threshold `>= 0.6` (401), principal check (403), geofence (400), late-arrival
notification, then creation with method `facial` (201). -/
def facialAttendance (tz : Int) (center : GeoPoint) (radius : ℚ) (emailFails : Bool)
    (actor : Actor) (now : Int) (emps : List Employee) (db : List AttendanceRecord)
    (req : FacialReq) : Response × List AttendanceRecord :=
  if req.faceTemplate.length ≠ 128 ∨ checkClaimedTime tz actor.role now req.entryTime ≠ .accept then
    (⟨400⟩, db)
  else
    match findEmployee emps req.employeeId with
    | none => (⟨401⟩, db)
    | some emp =>
      match emp.faceDescriptor with
      | none => (⟨401⟩, db)
      | some stored =>
        if faceRejectB req.faceTemplate stored then (⟨401⟩, db)
        else if actor.id ≠ req.employeeId ∧ actor.role ≠ .admin then (⟨403⟩, db)
        else if outsideFenceB req.location center radius then
          (⟨if emailFails then 500 else 400⟩, db)
        else if 9 ≤ hourOfDay tz req.entryTime ∧ emailFails then (⟨500⟩, db)
        else (⟨201⟩, db ++ [⟨req.employeeId, some req.entryTime, none, req.location, none, .facial⟩])

/-! ## Exit recording (`recordExit`, lines 1149-1294) -/

/-- Entry timestamp used for ordering and the exit-after-entry comparison;
every record the exit query selects has `entryTime` present, so the default
is never observed there. -/
def entryVal (r : AttendanceRecord) : Int := r.entryTime.getD 0

/-- The Mongo filter of the exit query: same employee, `entryTime` present
and inside `[s, e]`, no `exitTime` (`exitTime: {$exists: false}`). -/
def isOpenMatch (emp : Nat) (s e : Int) (r : AttendanceRecord) : Bool :=
  r.employee == emp && r.exitTime.isNone &&
    (match r.entryTime with
     | some t => decide (s ≤ t ∧ t ≤ e)
     | none => false)

/-- `findOne(filter).sort({ entryTime: -1 })`: the position and value of a
record satisfying `p` with maximal `entryTime`.  Mongo does not specify the
winner among ties; the model keeps the earliest-stored one. -/
def findOpen (p : AttendanceRecord → Bool) : List AttendanceRecord → Option (Nat × AttendanceRecord)
  | [] => none
  | r :: rest =>
    match findOpen p rest with
    | none => if p r then some (0, r) else none
    | some (j, rb) =>
      if p r then
        if entryVal r < entryVal rb then some (j + 1, rb) else some (0, r)
      else some (j + 1, rb)

/-- The `[startDate, endDate]` window of the exit query (lines 1192-1207):
for an admin, local midnight of `now - 7 days` up to the local end of today;
otherwise local midnight of today up to the local end of today. -/
def exitWindow (tz : Int) (role : Role) (now : Int) : Int × Int :=
  if role = .admin then
    (localMidnight tz (now - 7 * msPerDay), localMidnight tz now + (msPerDay - 1))
  else
    (localMidnight tz now, localMidnight tz now + (msPerDay - 1))

/-- Body of `POST /attendance/exit`. -/
structure ExitReq where
  employeeId : Nat
  exitTime : Int
  location : GeoPoint
deriving DecidableEq, Repr

/-- `recordExit`: temporal validation of the exit time, employee lookup
(404), search for the most recent open record in the role-dependent window
(400 `"No entry attendance found"` when absent), rejection when
`exitTime <= entryTime` (400), then the record is updated with the exit time
and exit location (200).  The handler reads `req.user.role` but never
compares `req.user.id` with the target employee.  The exit notification is
sent inside a local `try/catch` (lines 1265-1276), so `emailFails` cannot
change the response or the store. -/
def recordExit (tz : Int) (actor : Actor) (now : Int) (emailFails : Bool)
    (emps : List Employee) (db : List AttendanceRecord)
    (req : ExitReq) : Response × List AttendanceRecord :=
  if checkClaimedTime tz actor.role now req.exitTime ≠ .accept then (⟨400⟩, db)
  else
    match findEmployee emps req.employeeId with
    | none => (⟨404⟩, db)
    | some _ =>
      let w := exitWindow tz actor.role now
      match findOpen (isOpenMatch req.employeeId w.1 w.2) db with
      | none => (⟨400⟩, db)
      | some (j, r) =>
        if req.exitTime ≤ entryVal r then (⟨400⟩, db)
        else
          (⟨200⟩, db.set j { r with exitTime := some req.exitTime,
                                    exitLocation := some req.location })

/-! ## Reporting aggregator (`getPresenceReport`, lines 876-901) -/

/-- The per-employee presence summary. -/
structure Report where
  totalDays : Nat
  totalHours : ℚ
  lateDays : Nat
deriving DecidableEq, Repr

/-- One step of the `attendanceRecords.forEach` accumulation: a present
`entryTime` counts one day, a local entry hour ≥ 9 counts one late day, and
hours are added only when `exitTime` is also present
(`(exitTime - entryTime) / (1000*60*60)`). -/
def reportStep (tz : Int) (rep : Report) (r : AttendanceRecord) : Report :=
  match r.entryTime with
  | none => rep
  | some et =>
    let rep := { rep with totalDays := rep.totalDays + 1 }
    let rep := if 9 ≤ hourOfDay tz et then { rep with lateDays := rep.lateDays + 1 } else rep
    match r.exitTime with
    | some xt => { rep with totalHours := rep.totalHours + ((xt - et : Int) : ℚ) / (1000 * 60 * 60) }
    | none => rep

/-- The aggregation of `getPresenceReport` over the selected records,
starting from `{totalDays: 0, totalHours: 0, lateDays: 0}`. -/
def buildReport (tz : Int) (records : List AttendanceRecord) : Report :=
  records.foldl (reportStep tz) ⟨0, 0, 0⟩

/-- Hours contributed by one record: `(exitTime - entryTime) / (1000*60*60)`
when both timestamps are present, zero otherwise. -/
def hoursOf (r : AttendanceRecord) : ℚ :=
  match r.entryTime, r.exitTime with
  | some et, some xt => ((xt - et : Int) : ℚ) / (1000 * 60 * 60)
  | _, _ => 0

/-- Whether a record counts as a late day: entry present with local hour ≥ 9. -/
def lateP (tz : Int) (r : AttendanceRecord) : Bool :=
  match r.entryTime with
  | some et => decide (9 ≤ hourOfDay tz et)
  | none => false

/-! ## Shared helper lemmas -/

/-- `localDay` is monotone in the timestamp. -/
theorem localDay_mono (tz : Int) {a b : Int} (h : a ≤ b) : localDay tz a ≤ localDay tz b := by
  unfold localDay msPerDay
  exact Int.ediv_le_ediv (by norm_num) (by omega)

/-- C1: the claimed-timestamp check accepts exactly when the timestamp is at
most 15 minutes in the future, and — for a non-admin — on today's local
calendar date and at most 15 minutes in the past, and — for an admin — at
most 7 days in the past; a non-admin's timestamp from an earlier calendar day
is always rejected, a timestamp 10 minutes in the future is accepted, and a
timestamp 20 minutes in the future is rejected. -/
theorem C1_temporal_admissibility (tz : Int) (role : Role) (now t : Int) :
    (checkClaimedTime tz role now t = .accept ↔
      (t - now ≤ 15 * msPerMin ∧
       (role ≠ .admin → localDay tz now ≤ localDay tz t ∧ -(15 * msPerMin) ≤ t - now) ∧
       (role = .admin → -(7 * msPerDay) ≤ t - now)))
    ∧ (role ≠ .admin → localDay tz t < localDay tz now →
        checkClaimedTime tz role now t ≠ .accept)
    ∧ (checkClaimedTime tz role now (now + 10 * msPerMin) = .accept)
    ∧ (checkClaimedTime tz role now (now + 20 * msPerMin) = .rejectFuture) := by
  have hmin : msPerMin = 60000 := rfl
  have hday : msPerDay = 86400000 := rfl
  have hiff : ∀ s : Int, checkClaimedTime tz role now s = .accept ↔
      (s - now ≤ 15 * msPerMin ∧
       (role ≠ .admin → localDay tz now ≤ localDay tz s ∧ -(15 * msPerMin) ≤ s - now) ∧
       (role = .admin → -(7 * msPerDay) ≤ s - now)) := by
    intro s
    simp only [checkClaimedTime]
    by_cases h1 : s - now > 15 * msPerMin
    · rw [if_pos h1]
      simp only [reduceCtorEq, false_iff]
      rintro ⟨hle, -, -⟩; omega
    · rw [if_neg h1]
      by_cases h2 : role ≠ .admin ∧ localDay tz s < localDay tz now
      · rw [if_pos h2]
        simp only [reduceCtorEq, false_iff]
        rintro ⟨-, hna, -⟩
        rcases h2 with ⟨hrole, hd2⟩
        rcases hna hrole with ⟨hge, -⟩
        omega
      · rw [if_neg h2]
        by_cases h3 : role ≠ .admin ∧ s - now < -(15 * msPerMin)
        · rw [if_pos h3]
          simp only [reduceCtorEq, false_iff]
          rintro ⟨-, hna, -⟩
          rcases h3 with ⟨hrole, hdiff⟩
          rcases hna hrole with ⟨-, hge⟩
          omega
        · rw [if_neg h3]
          by_cases h4 : role = .admin ∧ s - now < -(7 * msPerDay)
          · rw [if_pos h4]
            simp only [reduceCtorEq, false_iff]
            rintro ⟨-, -, ha⟩
            rcases h4 with ⟨hrole, hdiff⟩
            have := ha hrole
            omega
          · rw [if_neg h4]
            simp only [true_iff]
            refine ⟨by omega, fun hrole => ⟨?_, ?_⟩, fun hrole => ?_⟩
            · by_contra hd5
              exact h2 ⟨hrole, by omega⟩
            · by_contra hdiff
              exact h3 ⟨hrole, by omega⟩
            · by_contra hdiff
              exact h4 ⟨hrole, by omega⟩
  refine ⟨hiff t, ?_, ?_, ?_⟩
  · intro hrole hlt hacc
    rcases ((hiff t).mp hacc).2.1 hrole with ⟨hge, -⟩
    omega
  · exact (hiff _).mpr
      ⟨by omega, fun _ => ⟨localDay_mono tz (by omega), by omega⟩, fun _ => by omega⟩
  · unfold checkClaimedTime
    rw [if_pos (by omega)]

/-- Witness for C1: at timezone 0, now = 0, for a non-admin actor, a
timestamp 10 minutes ahead is accepted, 20 minutes ahead is rejected, and a
timestamp of the previous local day is rejected. -/
theorem C1_temporal_admissibility_witness :
    checkClaimedTime 0 .employee 0 (10 * msPerMin) = .accept ∧
    checkClaimedTime 0 .employee 0 (20 * msPerMin) = .rejectFuture ∧
    checkClaimedTime 0 .employee 0 (-1) ≠ .accept :=
  ⟨(C1_temporal_admissibility 0 .employee 0 0).2.2.1,
   (C1_temporal_admissibility 0 .employee 0 0).2.2.2,
   (C1_temporal_admissibility 0 .employee 0 (-1)).2.1 (by decide) (by decide)⟩

/-! ## Reporting (C6) -/

theorem reportStep_totalDays (tz : Int) (acc : Report) (r : AttendanceRecord) :
    (reportStep tz acc r).totalDays = acc.totalDays + (if r.entryTime.isSome then 1 else 0) := by
  cases het : r.entryTime with
  | none => simp [reportStep, het]
  | some et =>
    cases hxt : r.exitTime <;> by_cases hlate : 9 ≤ hourOfDay tz et <;>
      simp [reportStep, het, hxt, hlate]

theorem reportStep_lateDays (tz : Int) (acc : Report) (r : AttendanceRecord) :
    (reportStep tz acc r).lateDays = acc.lateDays + (if lateP tz r then 1 else 0) := by
  cases het : r.entryTime with
  | none => simp [reportStep, lateP, het]
  | some et =>
    cases hxt : r.exitTime <;> by_cases hlate : 9 ≤ hourOfDay tz et <;>
      simp [reportStep, lateP, het, hxt, hlate]

theorem reportStep_totalHours (tz : Int) (acc : Report) (r : AttendanceRecord) :
    (reportStep tz acc r).totalHours = acc.totalHours + hoursOf r := by
  cases het : r.entryTime with
  | none => simp [reportStep, hoursOf, het]
  | some et =>
    cases hxt : r.exitTime <;> by_cases hlate : 9 ≤ hourOfDay tz et <;>
      simp [reportStep, hoursOf, het, hxt, hlate]

theorem foldl_reportStep (tz : Int) (rs : List AttendanceRecord) (acc : Report) :
    rs.foldl (reportStep tz) acc =
      ⟨acc.totalDays + rs.countP (fun r => r.entryTime.isSome),
       acc.totalHours + (rs.map hoursOf).sum,
       acc.lateDays + rs.countP (lateP tz)⟩ := by
  induction rs generalizing acc with
  | nil => simp
  | cons r rest ih =>
    rw [List.foldl_cons, ih]
    simp only [List.countP_cons, List.map_cons, List.sum_cons, Report.mk.injEq,
      reportStep_totalDays, reportStep_lateDays, reportStep_totalHours]
    refine ⟨?_, by ring, ?_⟩
    · by_cases h : r.entryTime.isSome <;> simp [h] <;> omega
    · by_cases h : lateP tz r <;> simp [h] <;> omega

/-- C6: over the selected records, `totalDays` counts the records with a
present entry timestamp, `lateDays` counts those whose entry's local hour is
at least 9, `totalHours` sums `(exit - entry)` in hours over the records
having both timestamps (an open session contributes zero); a record with
entry 08:30 and exit 17:30 yields `{totalDays 1, totalHours 9, lateDays 0}`,
and a record with entry 09:15 and no exit yields
`{totalDays 1, totalHours 0, lateDays 1}`. -/
theorem C6_report_aggregation (tz : Int) (rs : List AttendanceRecord) (loc : GeoPoint) :
    ((buildReport tz rs).totalDays = rs.countP (fun r => r.entryTime.isSome)
      ∧ (buildReport tz rs).lateDays = rs.countP (lateP tz)
      ∧ (buildReport tz rs).totalHours = (rs.map hoursOf).sum)
    ∧ buildReport 0 [⟨7, some 30600000, some 63000000, loc, none, .manual⟩] = ⟨1, 9, 0⟩
    ∧ buildReport 0 [⟨7, some 33300000, none, loc, none, .manual⟩] = ⟨1, 0, 1⟩ := by
  refine ⟨⟨?_, ?_, ?_⟩, ?_, ?_⟩
  · rw [buildReport, foldl_reportStep]; simp
  · rw [buildReport, foldl_reportStep]; simp
  · rw [buildReport, foldl_reportStep]; simp
  · rw [buildReport, foldl_reportStep]
    simp only [Report.mk.injEq]
    refine ⟨by simp, ?_, by simp [lateP, hourOfDay, msPerDay]⟩
    simp [hoursOf]
    norm_num
  · rw [buildReport, foldl_reportStep]
    simp only [Report.mk.injEq]
    refine ⟨by simp, ?_, by simp [lateP, hourOfDay, msPerDay]⟩
    simp [hoursOf]

/-! ## Geofence evaluator (C7) -/

/-- The decidable squared-comparison form of the geofence rejection test
agrees with the verbatim square-root form for every non-negative radius. -/
theorem outsideFenceB_iff (pt center : GeoPoint) (radius : ℚ) (hR : 0 ≤ radius) :
    outsideFenceB pt center radius = true ↔ scaledDistance pt center > (radius : ℝ) := by
  have hRr : (0 : ℝ) ≤ (radius : ℝ) := by exact_mod_cast hR
  have h111 : (0 : ℝ) < 111000 := by norm_num
  have main : ((radius : ℝ) < Real.sqrt (((pt.lng - center.lng : ℚ) : ℝ) ^ 2 +
        ((pt.lat - center.lat : ℚ) : ℝ) ^ 2) * 111000) ↔
      ((radius : ℝ) ^ 2 < (((pt.lng - center.lng : ℚ) : ℝ) ^ 2 +
        ((pt.lat - center.lat : ℚ) : ℝ) ^ 2) * 111000 ^ 2) := by
    rw [← div_lt_iff h111, Real.lt_sqrt (by positivity), div_pow,
      div_lt_iff (by positivity)]
  rw [outsideFenceB, decide_eq_true_eq, scaledDistance, gt_iff_lt, main]
  constructor <;> intro h <;> exact_mod_cast h

/-- C7: the geofence gate passes exactly when the scaled planar distance is
at most the radius; the center itself passes for every non-negative radius;
a point at scaled distance exactly the radius passes (the boundary accepts);
a point at scaled distance greater than the radius is rejected. -/
theorem C7_geofence_gate (pt center : GeoPoint) (R : ℝ) :
    (geofencePasses pt center R ↔ scaledDistance pt center ≤ R)
    ∧ (0 ≤ R → geofencePasses center center R)
    ∧ (scaledDistance pt center = R → geofencePasses pt center R)
    ∧ (scaledDistance pt center > R → ¬ geofencePasses pt center R) := by
  have hzero : scaledDistance center center = 0 := by
    simp [scaledDistance]
  refine ⟨not_lt, ?_, ?_, fun h hp => hp h⟩
  · intro hR
    exact not_lt.mpr (by rw [hzero]; exact hR)
  · intro h
    exact not_lt.mpr (le_of_eq h)

/-- Witness for C7: the fence center passes with radius 500, and a point one
degree of longitude away (scaled distance 111000) fails with radius 0. -/
theorem C7_geofence_gate_witness :
    geofencePasses ⟨0, 0⟩ ⟨0, 0⟩ 500 ∧ ¬ geofencePasses ⟨1, 0⟩ ⟨0, 0⟩ 0 :=
  ⟨(C7_geofence_gate ⟨0, 0⟩ ⟨0, 0⟩ 500).2.1 (by norm_num),
   (C7_geofence_gate ⟨1, 0⟩ ⟨0, 0⟩ 0).2.2.2 (by simp [scaledDistance])⟩

/-! ## Face-match evaluator (C8) -/

/-- A sum of coordinate-wise squared differences is non-negative. -/
theorem sumSq_nonneg (a b : List ℚ) : 0 ≤ sumSq a b := by
  induction a generalizing b with
  | nil => simp [sumSq]
  | cons x xs ih =>
    cases b with
    | nil => simp [sumSq]
    | cons y ys =>
      have := ih ys
      simp only [sumSq, List.zipWith_cons_cons, List.sum_cons] at this ⊢
      positivity

/-- The decidable squared-comparison form of the facial rejection test agrees
with the verbatim `calculateDistance(...) >= 0.6` comparison. -/
theorem faceRejectB_iff (probe stored : List ℚ) :
    faceRejectB probe stored = true ↔
      ((3 / 5 : ℝ) : EReal) ≤ calculateDistance (some probe) (some stored) := by
  simp only [faceRejectB, calculateDistance]
  by_cases hlen : probe.length = stored.length
  · rw [if_pos hlen, if_pos hlen, decide_eq_true_eq, EReal.coe_le_coe_iff,
      Real.le_sqrt (by norm_num) (by exact_mod_cast sumSq_nonneg probe stored)]
    constructor <;> intro h
    · calc ((3 : ℝ) / 5) ^ 2 = ((9 / 25 : ℚ) : ℝ) := by norm_num
        _ ≤ _ := by exact_mod_cast h
    · have : ((9 / 25 : ℚ) : ℝ) ≤ ((sumSq probe stored : ℚ) : ℝ) := by
        calc ((9 / 25 : ℚ) : ℝ) = ((3 : ℝ) / 5) ^ 2 := by norm_num
          _ ≤ _ := h
      exact_mod_cast this
  · rw [if_neg hlen, if_neg hlen]
    simp

/-- C8: `calculateDistance` is total and fail-closed — on every degenerate
input (either descriptor absent or lengths mismatched) it returns the
infinite sentinel `⊤`; the facial adapter's rejection test fires exactly when
the distance is at least 0.6; and on every degenerate stored descriptor
(absent, or of a length different from the probe's) the facial handler never
creates a record and leaves the store unchanged. -/
theorem C8_face_distance_fail_closed :
    (∀ d1 d2 : Option (List ℚ),
      (d1 = none ∨ d2 = none ∨ ∃ a b, d1 = some a ∧ d2 = some b ∧ a.length ≠ b.length) →
      calculateDistance d1 d2 = ⊤)
    ∧ (∀ probe stored : List ℚ, faceRejectB probe stored = true ↔
        ((3 / 5 : ℝ) : EReal) ≤ calculateDistance (some probe) (some stored))
    ∧ (∀ (tz : Int) (center : GeoPoint) (radius : ℚ) (ef : Bool) (actor : Actor) (now : Int)
        (emps : List Employee) (db : List AttendanceRecord) (req : FacialReq) (emp : Employee),
        findEmployee emps req.employeeId = some emp →
        (emp.faceDescriptor = none ∨
          ∃ stored, emp.faceDescriptor = some stored ∧ req.faceTemplate.length ≠ stored.length) →
        (facialAttendance tz center radius ef actor now emps db req).1.status ≠ 201
        ∧ (facialAttendance tz center radius ef actor now emps db req).2 = db) := by
  refine ⟨?_, faceRejectB_iff, ?_⟩
  · rintro d1 d2 (rfl | rfl | ⟨a, b, rfl, rfl, hab⟩)
    · rfl
    · cases d1 <;> rfl
    · simp [calculateDistance, hab]
  · intro tz center radius ef actor now emps db req emp hemp hdeg
    by_cases hval : req.faceTemplate.length ≠ 128 ∨ checkClaimedTime tz actor.role now req.entryTime ≠ .accept
    · simp only [facialAttendance]
      rw [if_pos hval]
      exact ⟨by simp, rfl⟩
    · rcases hdeg with hnone | ⟨stored, hsome, hlen⟩
      · simp [facialAttendance, hval, hemp, hnone]
      · have hrej : faceRejectB req.faceTemplate stored = true := by
          unfold faceRejectB
          rw [if_neg hlen]
        simp [facialAttendance, hval, hemp, hsome, hrej]

/-- Witness for C8: the sentinel on an absent argument and on a length
mismatch, and a concrete facial request (valid 128-entry probe, stored
descriptor of length 1) that is turned away with the store untouched. -/
theorem C8_face_distance_fail_closed_witness :
    calculateDistance none (some [0]) = ⊤
    ∧ calculateDistance (some [0, 1]) (some [0]) = ⊤
    ∧ (facialAttendance 0 ⟨0, 0⟩ 500 false ⟨7, .employee⟩ 0 [⟨7, some [0]⟩] []
        ⟨7, List.replicate 128 0, 0, ⟨0, 0⟩⟩).1.status ≠ 201
    ∧ (facialAttendance 0 ⟨0, 0⟩ 500 false ⟨7, .employee⟩ 0 [⟨7, some [0]⟩] []
        ⟨7, List.replicate 128 0, 0, ⟨0, 0⟩⟩).2 = [] := by
  refine ⟨C8_face_distance_fail_closed.1 none (some [0]) (Or.inl rfl),
    C8_face_distance_fail_closed.1 (some [0, 1]) (some [0])
      (Or.inr (Or.inr ⟨[0, 1], [0], rfl, rfl, by simp⟩)), ?_, ?_⟩
  · exact (C8_face_distance_fail_closed.2.2 0 ⟨0, 0⟩ 500 false ⟨7, .employee⟩ 0 _ _ _ ⟨7, some [0]⟩
      (by simp [findEmployee]) (Or.inr ⟨[0], rfl, by simp⟩)).1
  · exact (C8_face_distance_fail_closed.2.2 0 ⟨0, 0⟩ 500 false ⟨7, .employee⟩ 0 _ _ _ ⟨7, some [0]⟩
      (by simp [findEmployee]) (Or.inr ⟨[0], rfl, by simp⟩)).2

/-! ## Selection of the open record (C2, C9) -/

/-- The open-record search comes back empty exactly when no stored record
satisfies the filter. -/
theorem findOpen_eq_none_iff (p : AttendanceRecord → Bool) (db : List AttendanceRecord) :
    findOpen p db = none ↔ ∀ r ∈ db, p r = false := by
  induction db with
  | nil => simp [findOpen]
  | cons a rest ih =>
    simp only [findOpen, List.forall_mem_cons]
    cases h : findOpen p rest with
    | none =>
      have hall := ih.mp h
      by_cases hp : p a
      · simp [hp]
      · simp only [if_neg hp, true_iff, eq_self_iff_true]
        exact ⟨by simp [hp], hall⟩
    | some jr =>
      rcases jr with ⟨j, rb⟩
      have hne : ¬ ∀ x ∈ rest, p x = false := fun hall => by
        rw [ih.mpr hall] at h
        exact Option.noConfusion h
      constructor
      · intro hnone
        by_cases hp : p a <;> by_cases hlt : entryVal a < entryVal rb <;>
          simp [hp, hlt] at hnone
      · rintro ⟨-, hall⟩
        exact absurd hall hne

/-- When the open-record search returns position `j` and record `r`, then `r`
is stored at position `j`, satisfies the filter, and has the maximal entry
timestamp among all stored records satisfying the filter. -/
theorem findOpen_some (p : AttendanceRecord → Bool) (db : List AttendanceRecord) :
    ∀ (j : Nat) (r : AttendanceRecord), findOpen p db = some (j, r) →
      db[j]? = some r ∧ p r = true ∧ ∀ x ∈ db, p x = true → entryVal x ≤ entryVal r := by
  induction db with
  | nil => intro j r h; simp [findOpen] at h
  | cons a rest ih =>
    intro j r h
    simp only [findOpen] at h
    cases hrest : findOpen p rest with
    | none =>
      rw [hrest] at h
      by_cases hp : p a
      · rw [if_pos hp] at h
        simp only [Option.some.injEq, Prod.mk.injEq] at h
        obtain ⟨rfl, rfl⟩ := h
        refine ⟨by simp, hp, ?_⟩
        intro x hx hpx
        rcases List.mem_cons.mp hx with rfl | hx'
        · exact le_refl _
        · exact absurd hpx (by simp [(findOpen_eq_none_iff p rest).mp hrest x hx'])
      · rw [if_neg hp] at h
        exact Option.noConfusion h
    | some jr =>
      rcases jr with ⟨j', rb⟩
      rw [hrest] at h
      have h' : (if p a = true then
          if entryVal a < entryVal rb then some (j' + 1, rb) else some (0, a)
        else some (j' + 1, rb)) = some (j, r) := h
      have hrb := ih j' rb hrest
      by_cases hp : p a
      · by_cases hlt : entryVal a < entryVal rb
        · rw [if_pos hp, if_pos hlt] at h'
          simp only [Option.some.injEq, Prod.mk.injEq] at h'
          obtain ⟨rfl, rfl⟩ := h'
          refine ⟨by simpa using hrb.1, hrb.2.1, ?_⟩
          intro x hx hpx
          rcases List.mem_cons.mp hx with rfl | hx'
          · exact le_of_lt hlt
          · exact hrb.2.2 x hx' hpx
        · rw [if_pos hp, if_neg hlt] at h'
          simp only [Option.some.injEq, Prod.mk.injEq] at h'
          obtain ⟨rfl, rfl⟩ := h'
          refine ⟨by simp, hp, ?_⟩
          intro x hx hpx
          rcases List.mem_cons.mp hx with rfl | hx'
          · exact le_refl _
          · exact le_trans (hrb.2.2 x hx' hpx) (not_lt.mp hlt)
      · rw [if_neg hp] at h'
        simp only [Option.some.injEq, Prod.mk.injEq] at h'
        obtain ⟨rfl, rfl⟩ := h'
        refine ⟨by simpa using hrb.1, hrb.2.1, ?_⟩
        intro x hx hpx
        rcases List.mem_cons.mp hx with rfl | hx'
        · exact absurd hpx (by simp [hp])
        · exact hrb.2.2 x hx' hpx

/-- Unfolding of the exit query's filter. -/
theorem isOpenMatch_iff (emp : Nat) (s e : Int) (r : AttendanceRecord) :
    isOpenMatch emp s e r = true ↔
      r.employee = emp ∧ r.exitTime = none ∧ ∃ t, r.entryTime = some t ∧ s ≤ t ∧ t ≤ e := by
  unfold isOpenMatch
  cases het : r.entryTime <;>
    simp [het, Bool.and_eq_true, Option.isNone_iff_eq_none, and_assoc]

/-- C2 (amended): `recordExit` selects, among the stored records of the
target employee with no exit timestamp and an entry timestamp inside the
role-dependent window (today for non-admins, the last 7 days for admins), the
one with the maximal entry timestamp; when no such record exists it fails
with a 400 "No entry attendance found" error (not a 404 NotFound), leaving
the store unchanged; when the exit timestamp is not strictly greater than the
selected record's entry timestamp it fails with a 400 validation error,
leaving the store unchanged; otherwise it sets the exit timestamp and exit
location on exactly that record. -/
theorem C2_closeEntry (tz : Int) (actor : Actor) (now : Int) (ef : Bool)
    (emps : List Employee) (db : List AttendanceRecord) (req : ExitReq) (emp : Employee)
    (hval : checkClaimedTime tz actor.role now req.exitTime = .accept)
    (hemp : findEmployee emps req.employeeId = some emp) :
    (findOpen (isOpenMatch req.employeeId (exitWindow tz actor.role now).1
        (exitWindow tz actor.role now).2) db = none →
      recordExit tz actor now ef emps db req = (⟨400⟩, db)
        ∧ (∀ x ∈ db, ¬ (x.employee = req.employeeId ∧ x.exitTime = none ∧
            ∃ t, x.entryTime = some t ∧ (exitWindow tz actor.role now).1 ≤ t ∧
              t ≤ (exitWindow tz actor.role now).2)))
    ∧ (∀ j r, findOpen (isOpenMatch req.employeeId (exitWindow tz actor.role now).1
          (exitWindow tz actor.role now).2) db = some (j, r) →
        (db[j]? = some r ∧ r.employee = req.employeeId ∧ r.exitTime = none ∧
          (∃ t, r.entryTime = some t ∧ (exitWindow tz actor.role now).1 ≤ t ∧
            t ≤ (exitWindow tz actor.role now).2) ∧
          (∀ x ∈ db, isOpenMatch req.employeeId (exitWindow tz actor.role now).1
            (exitWindow tz actor.role now).2 x = true → entryVal x ≤ entryVal r))
        ∧ (req.exitTime ≤ entryVal r →
            recordExit tz actor now ef emps db req = (⟨400⟩, db))
        ∧ (entryVal r < req.exitTime →
            recordExit tz actor now ef emps db req =
              (⟨200⟩, db.set j { r with exitTime := some req.exitTime,
                                        exitLocation := some req.location }))) := by
  constructor
  · intro hnone
    refine ⟨by simp [recordExit, hval, hemp, hnone], ?_⟩
    intro x hx hprops
    have := (findOpen_eq_none_iff _ db).mp hnone x hx
    rw [← isOpenMatch_iff req.employeeId (exitWindow tz actor.role now).1
      (exitWindow tz actor.role now).2 x] at hprops
    simp [this] at hprops
  · intro j r hfind
    obtain ⟨hget, hmatch, hmax⟩ := findOpen_some _ db j r hfind
    obtain ⟨he1, he2, he3⟩ := (isOpenMatch_iff _ _ _ r).mp hmatch
    refine ⟨⟨hget, he1, he2, he3, hmax⟩, ?_, ?_⟩
    · intro hle
      simp [recordExit, hval, hemp, hfind, hle]
    · intro hgt
      simp [recordExit, hval, hemp, hfind, not_le.mpr hgt]

/-- Counterexample for C2: the employee exists but has no open record, and
`recordExit` answers with a 400 ("No entry attendance found. Please record
entry first.") rather than a 404 NotFound. -/
theorem C2_closeEntry_counterexample :
    (recordExit 0 ⟨7, .employee⟩ 0 false [⟨7, none⟩] [] ⟨7, 0, ⟨0, 0⟩⟩).1.status = 400
    ∧ (recordExit 0 ⟨7, .employee⟩ 0 false [⟨7, none⟩] [] ⟨7, 0, ⟨0, 0⟩⟩).1.status ≠ 404 := by
  constructor
  · rfl
  · decide

/-- Witness for C2: an employee with a single open record entered at 09:00
closes it at 12:00 of the same day; the exit timestamp and location are set
on that record. -/
theorem C2_closeEntry_witness :
    recordExit 0 ⟨7, .employee⟩ 43200000 false [⟨7, none⟩]
      [⟨7, some 32400000, none, ⟨0, 0⟩, none, .manual⟩] ⟨7, 43200000, ⟨0, 0⟩⟩ =
      (⟨200⟩, [⟨7, some 32400000, some 43200000, ⟨0, 0⟩, some ⟨0, 0⟩, .manual⟩]) := by
  have h := ((C2_closeEntry 0 ⟨7, .employee⟩ 43200000 false [⟨7, none⟩]
      [⟨7, some 32400000, none, ⟨0, 0⟩, none, .manual⟩] ⟨7, 43200000, ⟨0, 0⟩⟩ ⟨7, none⟩
      (by decide) rfl).2 0 ⟨7, some 32400000, none, ⟨0, 0⟩, none, .manual⟩ rfl).2.2
    (by decide)
  exact h

/-- C9: a successful `recordExit` rewrites exactly one stored record, the
selected one, changing only its `exitTime` and `exitLocation`; its owning
employee, entry timestamp, entry location and capture method are preserved,
and every other stored record is untouched. -/
theorem C9_exit_frame (tz : Int) (actor : Actor) (now : Int) (ef : Bool)
    (emps : List Employee) (db : List AttendanceRecord) (req : ExitReq)
    (h200 : (recordExit tz actor now ef emps db req).1.status = 200) :
    ∃ j r, db[j]? = some r ∧
      (recordExit tz actor now ef emps db req).2 =
        db.set j { r with exitTime := some req.exitTime, exitLocation := some req.location } ∧
      (∀ r', (recordExit tz actor now ef emps db req).2[j]? = some r' →
        r'.employee = r.employee ∧ r'.entryTime = r.entryTime ∧ r'.location = r.location ∧
        r'.method = r.method ∧ r'.exitTime = some req.exitTime ∧
        r'.exitLocation = some req.location) ∧
      (∀ k, k ≠ j → (recordExit tz actor now ef emps db req).2[k]? = db[k]?) := by
  by_cases hval : checkClaimedTime tz actor.role now req.exitTime ≠ .accept
  · exfalso; simp [recordExit, hval] at h200
  · cases hemp : findEmployee emps req.employeeId with
    | none => exfalso; simp [recordExit, hval, hemp] at h200
    | some emp =>
      cases hfind : findOpen (isOpenMatch req.employeeId (exitWindow tz actor.role now).1
          (exitWindow tz actor.role now).2) db with
      | none => exfalso; simp [recordExit, hval, hemp, hfind] at h200
      | some jr =>
        rcases jr with ⟨j, r⟩
        by_cases hle : req.exitTime ≤ entryVal r
        · exfalso; simp [recordExit, hval, hemp, hfind, hle] at h200
        · have hres : recordExit tz actor now ef emps db req =
              (⟨200⟩, db.set j { r with exitTime := some req.exitTime,
                                        exitLocation := some req.location }) := by
            simp [recordExit, hval, hemp, hfind, hle]
          obtain ⟨hget, -, -⟩ := findOpen_some _ db j r hfind
          have hjlen : j < db.length := by
            by_contra hlen
            rw [List.getElem?_eq_none (le_of_not_lt hlen)] at hget
            exact Option.noConfusion hget
          refine ⟨j, r, hget, by rw [hres], ?_, ?_⟩
          · intro r' hr'
            rw [hres] at hr'
            simp only at hr'
            rw [List.getElem?_set_eq_of_lt _ hjlen] at hr'
            obtain rfl := Option.some.inj hr'
            exact ⟨rfl, rfl, rfl, rfl, rfl, rfl⟩
          · intro k hk
            rw [hres]
            exact List.getElem?_set_ne (Ne.symm hk)

/-- Witness for C9: the successful exit of the C2 scenario, showing the
updated store keeps the entry data and only gains the exit data. -/
theorem C9_exit_frame_witness :
    ∃ j r, ([⟨7, some 32400000, none, ⟨0, 0⟩, none, .manual⟩] :
        List AttendanceRecord)[j]? = some r ∧
      (recordExit 0 ⟨7, .employee⟩ 43200000 false [⟨7, none⟩]
        [⟨7, some 32400000, none, ⟨0, 0⟩, none, .manual⟩] ⟨7, 43200000, ⟨0, 0⟩⟩).2 =
        ([⟨7, some 32400000, none, ⟨0, 0⟩, none, .manual⟩] : List AttendanceRecord).set j
          { r with exitTime := some (43200000 : Int), exitLocation := some ⟨0, 0⟩ } ∧
      (∀ r', (recordExit 0 ⟨7, .employee⟩ 43200000 false [⟨7, none⟩]
          [⟨7, some 32400000, none, ⟨0, 0⟩, none, .manual⟩] ⟨7, 43200000, ⟨0, 0⟩⟩).2[j]? = some r' →
        r'.employee = r.employee ∧ r'.entryTime = r.entryTime ∧ r'.location = r.location ∧
        r'.method = r.method ∧ r'.exitTime = some (43200000 : Int) ∧
        r'.exitLocation = some ⟨0, 0⟩) ∧
      (∀ k, k ≠ j → (recordExit 0 ⟨7, .employee⟩ 43200000 false [⟨7, none⟩]
          [⟨7, some 32400000, none, ⟨0, 0⟩, none, .manual⟩] ⟨7, 43200000, ⟨0, 0⟩⟩).2[k]? =
        ([⟨7, some 32400000, none, ⟨0, 0⟩, none, .manual⟩] : List AttendanceRecord)[k]?) :=
  C9_exit_frame 0 ⟨7, .employee⟩ 43200000 false [⟨7, none⟩]
    [⟨7, some 32400000, none, ⟨0, 0⟩, none, .manual⟩] ⟨7, 43200000, ⟨0, 0⟩⟩ (by decide)

/-! ## Authorization across the adapters (C3) -/

/-- A sum of squared differences of two equal replicated lists is zero. -/
theorem sumSq_replicate_zero (n : ℕ) (x : ℚ) :
    sumSq (List.replicate n x) (List.replicate n x) = 0 := by
  induction n with
  | zero => rfl
  | succ k ih => simpa [sumSq, List.replicate_succ] using ih

/-- A probe differing from the stored all-zero descriptor in one coordinate
by 1 has squared distance 1. -/
theorem sumSq_probe_one :
    sumSq (1 :: List.replicate 127 0) (List.replicate 128 0) = 1 := by
  have hc : sumSq (1 :: List.replicate 127 0) (List.replicate 128 0) =
      ((1 : ℚ) - 0) ^ 2 + sumSq (List.replicate 127 0) (List.replicate 127 0) := rfl
  rw [hc, sumSq_replicate_zero]
  norm_num

/-- Counterexample for C3 at concrete inputs: (i) an exit request by actor 99
(a plain employee) against employee 7's open session is accepted with status
200 and modifies the stored record — `recordExit` never compares the
principal with the target employee; (ii) a facial request by unauthorized
actor 99 whose probe does not match employee 7's stored descriptor is turned
away with status 401 (the face-mismatch rejection), not with a 403
authorization error. -/
theorem C3_authorization_counterexample :
    (recordExit 0 ⟨99, .employee⟩ 43200000 false [⟨7, none⟩]
        [⟨7, some 32400000, none, ⟨0, 0⟩, none, .manual⟩] ⟨7, 43200000, ⟨0, 0⟩⟩).1.status = 200
    ∧ (recordExit 0 ⟨99, .employee⟩ 43200000 false [⟨7, none⟩]
        [⟨7, some 32400000, none, ⟨0, 0⟩, none, .manual⟩] ⟨7, 43200000, ⟨0, 0⟩⟩).2 ≠
        [⟨7, some 32400000, none, ⟨0, 0⟩, none, .manual⟩]
    ∧ (facialAttendance 0 ⟨0, 0⟩ 500 false ⟨99, .employee⟩ 0 [⟨7, some (List.replicate 128 0)⟩] []
        ⟨7, 1 :: List.replicate 127 0, 0, ⟨0, 0⟩⟩).1.status = 401
    ∧ (401 : Nat) ≠ 403 := by
  have hrej : faceRejectB (1 :: List.replicate 127 0) (List.replicate 128 0) = true := by
    unfold faceRejectB
    rw [if_pos (by simp), decide_eq_true_eq, sumSq_probe_one]
    norm_num
  have hval : checkClaimedTime 0 Role.employee 0 0 = .accept := by decide
  have hemp : findEmployee [⟨7, some (List.replicate 128 0)⟩] 7 =
      some ⟨7, some (List.replicate 128 0)⟩ := rfl
  refine ⟨by decide, by decide, ?_, by decide⟩
  generalize hpr : (1 :: List.replicate 127 (0 : ℚ)) = probe at hrej ⊢
  generalize hst : List.replicate 128 (0 : ℚ) = stored at hrej hemp ⊢
  have hlen : probe.length = 128 := by rw [← hpr]; simp
  simp [facialAttendance, hrej, hval, hemp, hlen]

/-- C3 (amended): for the three capture-method adapters, a principal that is
neither the target employee nor an admin never causes a record to be created;
the rejection carries the 403 authorization status for manual recording (with
admissible input and an existing target employee) and for the QR adapter
(with admissible input and a parsed payload); for the facial adapter the 403
is produced only once the stored descriptor exists and the face check passes,
a failing face check taking precedence with its 401.  The exit operation
`recordExit`, unlike the three adapters, performs no principal check at all:
its outcome is the same for every acting principal of a given role. -/
theorem C3_authorization (tz : Int) (center : GeoPoint) (radius : ℚ) (ef : Bool)
    (actor : Actor) (now : Int) (emps : List Employee) (db : List AttendanceRecord) :
    (∀ req : EntryReq, actor.id ≠ req.employeeId → actor.role ≠ .admin →
      (recordAttendance tz center radius ef actor now emps db req).2 = db
      ∧ (checkClaimedTime tz actor.role now req.entryTime = .accept →
          ∀ emp, findEmployee emps req.employeeId = some emp →
          recordAttendance tz center radius ef actor now emps db req = (⟨403⟩, db)))
    ∧ (∀ (p : QrPayload) (entryTime : Int) (loc : GeoPoint),
        actor.id ≠ p.employeeId → actor.role ≠ .admin →
        (scanQrCode tz center radius ef actor now emps db ⟨some p, entryTime, loc⟩).2 = db
        ∧ (checkClaimedTime tz actor.role now entryTime = .accept →
            scanQrCode tz center radius ef actor now emps db ⟨some p, entryTime, loc⟩ =
              (⟨403⟩, db)))
    ∧ (∀ req : FacialReq, actor.id ≠ req.employeeId → actor.role ≠ .admin →
        (facialAttendance tz center radius ef actor now emps db req).2 = db
        ∧ (∀ emp stored,
            ¬(req.faceTemplate.length ≠ 128 ∨
              checkClaimedTime tz actor.role now req.entryTime ≠ .accept) →
            findEmployee emps req.employeeId = some emp →
            emp.faceDescriptor = some stored →
            faceRejectB req.faceTemplate stored = false →
            facialAttendance tz center radius ef actor now emps db req = (⟨403⟩, db)))
    ∧ (∀ (i i' : Nat) (ro : Role) (req : ExitReq),
        recordExit tz ⟨i, ro⟩ now ef emps db req = recordExit tz ⟨i', ro⟩ now ef emps db req) := by
  refine ⟨?_, ?_, ?_, fun i i' ro req => rfl⟩
  · intro req hne hnadmin
    constructor
    · by_cases hval : checkClaimedTime tz actor.role now req.entryTime ≠ .accept
      · simp [recordAttendance, hval]
      · cases hemp : findEmployee emps req.employeeId with
        | none => simp [recordAttendance, hval, hemp]
        | some emp => simp [recordAttendance, hval, hemp, hne, hnadmin]
    · intro hacc emp hemp
      simp [recordAttendance, hacc, hemp, hne, hnadmin]
  · intro p entryTime loc hne hnadmin
    constructor
    · by_cases hval : checkClaimedTime tz actor.role now entryTime ≠ .accept
      · simp [scanQrCode, hval]
      · simp [scanQrCode, hval, hne, hnadmin]
    · intro hacc
      simp [scanQrCode, hacc, hne, hnadmin]
  · intro req hne hnadmin
    constructor
    · by_cases hval : req.faceTemplate.length ≠ 128 ∨
          checkClaimedTime tz actor.role now req.entryTime ≠ .accept
      · simp only [facialAttendance]
        rw [if_pos hval]
      · cases hemp : findEmployee emps req.employeeId with
        | none => simp [facialAttendance, hval, hemp]
        | some emp =>
          cases hdes : emp.faceDescriptor with
          | none => simp [facialAttendance, hval, hemp, hdes]
          | some stored =>
            by_cases hrej : faceRejectB req.faceTemplate stored
            · simp [facialAttendance, hval, hemp, hdes, hrej]
            · simp [facialAttendance, hval, hemp, hdes, hrej, hne, hnadmin]
    · intro emp stored hval hemp hdes hrej
      simp [facialAttendance, hval, hemp, hdes, hrej, hne, hnadmin]

set_option maxRecDepth 4000 in
/-- Witness for C3: actor 99, a plain employee, is turned away with 403 by
all three adapters (manual, QR, facial with a matching face) and no record is
created; and `recordExit`'s outcome for actors 99 and 7 of the same role
coincides on a concrete store. -/
theorem C3_authorization_witness :
    recordAttendance 0 ⟨0, 0⟩ 500 false ⟨99, .employee⟩ 0 [⟨7, none⟩] []
      ⟨7, 0, ⟨0, 0⟩, .manual⟩ = (⟨403⟩, [])
    ∧ scanQrCode 0 ⟨0, 0⟩ 500 false ⟨99, .employee⟩ 0 [⟨7, none⟩] []
        ⟨some ⟨7, 0, none⟩, 0, ⟨0, 0⟩⟩ = (⟨403⟩, [])
    ∧ facialAttendance 0 ⟨0, 0⟩ 500 false ⟨99, .employee⟩ 0
        [⟨7, some (List.replicate 128 0)⟩] []
        ⟨7, List.replicate 128 0, 0, ⟨0, 0⟩⟩ = (⟨403⟩, [])
    ∧ recordExit 0 ⟨99, .employee⟩ 0 false [⟨7, none⟩] [] ⟨7, 0, ⟨0, 0⟩⟩ =
        recordExit 0 ⟨7, .employee⟩ 0 false [⟨7, none⟩] [] ⟨7, 0, ⟨0, 0⟩⟩ := by
  have hmatch : faceRejectB (List.replicate 128 0) (List.replicate 128 0) = false := by
    unfold faceRejectB
    rw [if_pos rfl]
    rw [decide_eq_false_iff_not]
    rw [sumSq_replicate_zero]
    norm_num
  have h := C3_authorization 0 ⟨0, 0⟩ 500 false ⟨99, .employee⟩ 0 [⟨7, none⟩] []
  refine ⟨(h.1 ⟨7, 0, ⟨0, 0⟩, .manual⟩ (by decide) (by decide)).2 (by decide) ⟨7, none⟩ rfl,
    (h.2.1 ⟨7, 0, none⟩ 0 ⟨0, 0⟩ (by decide) (by decide)).2 (by decide), ?_,
    (C3_authorization 0 ⟨0, 0⟩ 500 false ⟨99, .employee⟩ 0 [⟨7, none⟩] []).2.2.2 99 7
      .employee ⟨7, 0, ⟨0, 0⟩⟩⟩
  exact ((C3_authorization 0 ⟨0, 0⟩ 500 false ⟨99, .employee⟩ 0
      [⟨7, some (List.replicate 128 0)⟩] []).2.2.1
    ⟨7, List.replicate 128 0, 0, ⟨0, 0⟩⟩ (by decide) (by decide)).2
    ⟨7, some (List.replicate 128 0)⟩ (List.replicate 128 0)
    (by decide) rfl rfl hmatch

/-! ## QR expiry (C4) and QR credential locality (C10) -/

/-- Counterexample for C4: a token produced by `generateQrCode` six minutes
before the scan still carries an embedded expiry almost 12 hours in the
future, yet the scan is rejected as expired with 401 — under the claim the
embedded expiry field would be authoritative and the (otherwise fully valid)
scan would be accepted with 201. -/
theorem C4_qr_expiry_counterexample :
    (scanQrCode 0 ⟨0, 0⟩ 500 false ⟨7, .employee⟩ 0 [⟨7, none⟩] []
        ⟨some (generateQrPayload 7 (-(6 * msPerMin))), 0, ⟨0, 0⟩⟩).1.status = 401
    ∧ (∃ x, (generateQrPayload 7 (-(6 * msPerMin))).expiresAt = some x ∧ (0 : Int) < x)
    ∧ (401 : Nat) ≠ 201 :=
  ⟨by decide, ⟨-(6 * msPerMin) + 12 * 60 * 60 * 1000, rfl, by decide⟩, by decide⟩

/-- C4 (amended): the expiry decision of `scanQrCode` ignores the token's
embedded `expiresAt` entirely; with a successful notifier, an authorized
principal, an existing employee and an admissible entry time, the token is
rejected as expired (401, store unchanged) exactly when more than 5 minutes
have elapsed since its embedded issuance timestamp — in particular a token
issued 6 minutes before the scan is rejected as expired. -/
theorem C4_qr_expiry (tz : Int) (center : GeoPoint) (radius : ℚ)
    (actor : Actor) (now : Int) (emps : List Employee) (db : List AttendanceRecord)
    (p : QrPayload) (entryTime : Int) (loc : GeoPoint)
    (hval : checkClaimedTime tz actor.role now entryTime = .accept)
    (hauth : ¬(actor.id ≠ p.employeeId ∧ actor.role ≠ .admin))
    (emp : Employee) (hemp : findEmployee emps p.employeeId = some emp) :
    (∀ exp', scanQrCode tz center radius false actor now emps db
        ⟨some { p with expiresAt := exp' }, entryTime, loc⟩
      = scanQrCode tz center radius false actor now emps db ⟨some p, entryTime, loc⟩)
    ∧ (now - p.timestamp > 5 * msPerMin →
        scanQrCode tz center radius false actor now emps db ⟨some p, entryTime, loc⟩ =
          (⟨401⟩, db))
    ∧ (¬(now - p.timestamp > 5 * msPerMin) →
        (scanQrCode tz center radius false actor now emps db
          ⟨some p, entryTime, loc⟩).1.status ≠ 401) := by
  refine ⟨fun exp' => rfl, ?_, ?_⟩
  · intro hexp
    simp [scanQrCode, hval, hauth, hemp, hexp]
  · intro hexp
    by_cases hfence : outsideFenceB loc center radius
    · simp [scanQrCode, hval, hauth, hemp, hexp, hfence]
    · simp [scanQrCode, hval, hauth, hemp, hexp, hfence]

/-- Witness for C4: the 6-minute-old generated token of the counterexample is
rejected as expired through the amended rule. -/
theorem C4_qr_expiry_witness :
    scanQrCode 0 ⟨0, 0⟩ 500 false ⟨7, .employee⟩ 0 [⟨7, none⟩] []
      ⟨some (generateQrPayload 7 (-(6 * msPerMin))), 0, ⟨0, 0⟩⟩ = (⟨401⟩, []) :=
  (C4_qr_expiry 0 ⟨0, 0⟩ 500 ⟨7, .employee⟩ 0 [⟨7, none⟩] []
      (generateQrPayload 7 (-(6 * msPerMin))) 0 ⟨0, 0⟩ (by decide) (by decide)
      ⟨7, none⟩ rfl).2.1 (by decide)

/-- C10: the QR credential check is a function of the parsed payload's
`(employeeId, timestamp)` and the current time only — the embedded
`expiresAt` never influences the outcome (any two payloads differing only
there behave identically), nothing ties the scanned string to a token really
issued by `generateQrCode`, and with an authorized principal, an existing
employee and an admissible entry time the payload passes the expiry gate
exactly when at most 5 minutes have elapsed since its issuance timestamp. -/
theorem C10_qr_credential (tz : Int) (center : GeoPoint) (radius : ℚ) (ef : Bool)
    (actor : Actor) (now : Int) (emps : List Employee) (db : List AttendanceRecord)
    (e : Nat) (ts : Int) (exp exp' : Option Int) (entryTime : Int) (loc : GeoPoint) :
    (scanQrCode tz center radius ef actor now emps db ⟨some ⟨e, ts, exp⟩, entryTime, loc⟩
      = scanQrCode tz center radius ef actor now emps db ⟨some ⟨e, ts, exp'⟩, entryTime, loc⟩)
    ∧ (checkClaimedTime tz actor.role now entryTime = .accept →
        ¬(actor.id ≠ e ∧ actor.role ≠ .admin) →
        ∀ emp, findEmployee emps e = some emp →
        ((now - ts > 5 * msPerMin →
            (scanQrCode tz center radius ef actor now emps db
              ⟨some ⟨e, ts, exp⟩, entryTime, loc⟩).1.status = (if ef then 500 else 401)
            ∧ (scanQrCode tz center radius ef actor now emps db
              ⟨some ⟨e, ts, exp⟩, entryTime, loc⟩).2 = db)
          ∧ (¬(now - ts > 5 * msPerMin) →
            (scanQrCode tz center radius ef actor now emps db
              ⟨some ⟨e, ts, exp⟩, entryTime, loc⟩).1.status ≠ 401))) := by
  refine ⟨rfl, ?_⟩
  intro hval hauth emp hemp
  constructor
  · intro hexp
    constructor <;> by_cases hef : ef <;> simp [scanQrCode, hval, hauth, hemp, hexp, hef]
  · intro hexp
    by_cases hfence : outsideFenceB loc center radius
    · by_cases hef : ef <;> simp [scanQrCode, hval, hauth, hemp, hexp, hfence, hef]
    · by_cases hlate : (9 : Int) ≤ hourOfDay tz entryTime <;> by_cases hef : ef <;>
        simp [scanQrCode, hval, hauth, hemp, hexp, hfence, hlate, hef]

/-- Witness for C10: two payloads differing only in `expiresAt` give the same
outcome; a payload stamped 6 minutes ago is rejected as expired even with a
far-future `expiresAt`; a payload stamped 1 minute ago passes the gate. -/
theorem C10_qr_credential_witness :
    (scanQrCode 0 ⟨0, 0⟩ 500 false ⟨7, .employee⟩ 0 [⟨7, none⟩] []
        ⟨some ⟨7, -(6 * msPerMin), some (10 * msPerDay)⟩, 0, ⟨0, 0⟩⟩ =
      scanQrCode 0 ⟨0, 0⟩ 500 false ⟨7, .employee⟩ 0 [⟨7, none⟩] []
        ⟨some ⟨7, -(6 * msPerMin), none⟩, 0, ⟨0, 0⟩⟩)
    ∧ (scanQrCode 0 ⟨0, 0⟩ 500 false ⟨7, .employee⟩ 0 [⟨7, none⟩] []
        ⟨some ⟨7, -(6 * msPerMin), some (10 * msPerDay)⟩, 0, ⟨0, 0⟩⟩).1.status = 401
    ∧ (scanQrCode 0 ⟨0, 0⟩ 500 false ⟨7, .employee⟩ 0 [⟨7, none⟩] []
        ⟨some ⟨7, -(1 * msPerMin), none⟩, 0, ⟨0, 0⟩⟩).1.status ≠ 401 :=
  ⟨(C10_qr_credential 0 ⟨0, 0⟩ 500 false ⟨7, .employee⟩ 0 [⟨7, none⟩] [] 7
      (-(6 * msPerMin)) (some (10 * msPerDay)) none 0 ⟨0, 0⟩).1,
   ((C10_qr_credential 0 ⟨0, 0⟩ 500 false ⟨7, .employee⟩ 0 [⟨7, none⟩] [] 7
      (-(6 * msPerMin)) (some (10 * msPerDay)) none 0 ⟨0, 0⟩).2 (by decide) (by decide)
      ⟨7, none⟩ rfl).1 (by decide) |>.1,
   ((C10_qr_credential 0 ⟨0, 0⟩ 500 false ⟨7, .employee⟩ 0 [⟨7, none⟩] [] 7
      (-(1 * msPerMin)) none none 0 ⟨0, 0⟩).2 (by decide) (by decide)
      ⟨7, none⟩ rfl).2 (by decide)⟩

/-! ## Notifier failure isolation (C5) -/

/-- C5 (code-bug exhibit): with every gate passing and a late entry (local
hour 10 ≥ 9), a failing notification dispatch turns the acceptance into a 500
failure and no record is created — `sendEmailAndNotify` re-throws on failure
and `recordAttendance` awaits the late-arrival notification before saving,
with no local catch; the identical request is accepted with 201 when dispatch
succeeds, showing the dispatch outcome alone flips the response.  On an
already-rejecting path (geofence), a failing dispatch yields a 500, never an
acceptance. -/
theorem C5_notifier_failure :
    (recordAttendance 0 ⟨0, 0⟩ 500 true ⟨7, .employee⟩ 36000000 [⟨7, none⟩] []
        ⟨7, 36000000, ⟨0, 0⟩, .manual⟩).1.status = 500
    ∧ (recordAttendance 0 ⟨0, 0⟩ 500 true ⟨7, .employee⟩ 36000000 [⟨7, none⟩] []
        ⟨7, 36000000, ⟨0, 0⟩, .manual⟩).2 = []
    ∧ recordAttendance 0 ⟨0, 0⟩ 500 false ⟨7, .employee⟩ 36000000 [⟨7, none⟩] []
        ⟨7, 36000000, ⟨0, 0⟩, .manual⟩ =
        (⟨201⟩, [⟨7, some 36000000, none, ⟨0, 0⟩, none, .manual⟩])
    ∧ (recordAttendance 0 ⟨0, 0⟩ 500 true ⟨7, .employee⟩ 36000000 [⟨7, none⟩] []
        ⟨7, 36000000, ⟨1, 0⟩, .manual⟩).1.status = 500 := by
  have hval : checkClaimedTime 0 Role.employee 36000000 36000000 = .accept := by decide
  have hemp : findEmployee [⟨7, none⟩] 7 = some ⟨7, none⟩ := rfl
  have hin : outsideFenceB ⟨0, 0⟩ ⟨0, 0⟩ 500 = false := by
    simp [outsideFenceB]
  have hout : outsideFenceB ⟨1, 0⟩ ⟨0, 0⟩ 500 = true := by
    simp [outsideFenceB]
    norm_num
  have hhour : (9 : Int) ≤ hourOfDay 0 36000000 := by decide
  refine ⟨?_, ?_, ?_, ?_⟩
  · simp [recordAttendance, hval, hemp, hin, hhour]
  · simp [recordAttendance, hval, hemp, hin, hhour]
  · simp [recordAttendance, hval, hemp, hin]
  · simp [recordAttendance, hval, hemp, hout]

end HRM
